import Mathlib

/-!
Verification of the middleware-chain sample (main.go).

The embedding is a shallow, state-passing model of the Go code:

* A handler receives a request and the trace of observable events so far
  and returns the extended trace together with an optional panic value.
  Events record, in order, every write to the HTTP response sink
  (status-code writes and body writes) and every line printed to the
  console log, so that "stage X executed" is observable as the presence
  of the events X appends.
* A Go panic is modelled as a `some` panic value in the result; code
  without a deferred recover passes it through unchanged (in the source
  every call to the next handler is in tail position, so propagation is
  exact).
* A request carries its header map and the gorilla/mux route-variable
  map as association lists, plus the method and the URL path (fields the
  middleware never reads, kept so that noninterference statements are
  not vacuous).  Header keys are stored in canonical MIME form, so
  `Header.Get` is a plain first-match lookup defaulting to the empty
  string, exactly like a missing key in a Go map read.
-/

/-- One observable event of a request invocation: a status-code write to
the response sink (`WriteHeader`), a body write to the response sink
(`io.WriteString` / `fmt.Fprintln`), or a console log line
(`fmt.Println`). -/
inductive Event where
  | status (code : Nat)
  | body (s : String)
  | log (s : String)
deriving DecidableEq, Repr

/-- A Go panic value, abstracted by whether its dynamic type implements
the `error` interface (that is all `LoggingFunc` inspects). -/
inductive PanicVal where
  | err (msg : String)
  | other (descr : String)
deriving DecidableEq, Repr

/-- The ordered trace of events of one invocation. -/
abbrev Trace := List Event

/-- An HTTP request: header map (canonical keys), mux route variables,
method and URL path.  Maps are association lists; a missing key reads as
the empty string, as in Go. -/
structure Request where
  headers : List (String × String)
  vars : List (String × String)
  method : String
  urlPath : String
deriving DecidableEq, Repr

/-- `req.Header.Get(k)`: first value stored for the canonical key `k`,
or the empty string when the key is absent. -/
def headerGet (req : Request) (k : String) : String :=
  (List.lookup k req.headers).getD ""

/-- `mux.Vars(req)[k]`: the route variable `k`, or the empty string when
the key is absent (Go map read of a missing key). -/
def muxVar (req : Request) (k : String) : String :=
  (List.lookup k req.vars).getD ""

/-- `http.Handler` / `http.HandlerFunc`: consumes the request and the
trace so far, returns the extended trace and an optional propagating
panic. -/
abbrev Handler := Request → Trace → Trace × Option PanicVal

/-- `type Middleware func(http.HandlerFunc) http.HandlerFunc` (also the
shape of `func(next http.Handler) http.Handler` and
`mux.MiddlewareFunc`). -/
abbrev Middleware := Handler → Handler

/-- main.go lines 15-33: checks the `Authorization` header against the
`id` route variable; 401 on missing or mismatched credential, otherwise
calls the next handler. -/
def AuthorizationMiddleware (next : Handler) : Handler := fun req t =>
  let profile := headerGet req "Authorization"
  if profile.length = 0 then
    (t ++ [Event.log "missing auth token", Event.status 401], none)
  else
    let tokenID := muxVar req "id"
    if profile ≠ tokenID then
      (t ++ [Event.log "ownership not matched", Event.status 401], none)
    else
      next req t

/-- main.go lines 35-47: reads the `Authorization` header, rejects only
when it is missing, then logs the `id` route variable and calls the next
handler without comparing the two. -/
def AuthorizationMiddleware_Bad (next : Handler) : Handler := fun req t =>
  let profile := headerGet req "Authorization"
  if profile.length = 0 then
    (t ++ [Event.log "missing auth token", Event.status 401], none)
  else
    let tokenID := muxVar req "id"
    next req (t ++ [Event.log ("tokenID: " ++ tokenID)])

/-- main.go lines 49-51: writes the fixed JSON payload to the response
sink. -/
def GetAccount : Handler := fun _ t =>
  (t ++ [Event.body "\x7b\"message\": \"hello world..\"\x7d"], none)

/-- main.go lines 114-129: logs the request, then calls the next handler
under a deferred `recover`; a recovered panic whose value implements
`error` becomes a 500 status write, any other recovered panic is dropped
silently, and a normal return is passed through (the request line printed
by `fmt.Println(req)` is modelled as an opaque log entry). -/
def LoggingFunc : Middleware := fun next req t =>
  match next req (t ++ [Event.log "req"]) with
  | (t2, none) => (t2, none)
  | (t2, some (PanicVal.err _)) => (t2 ++ [Event.status 500], none)
  | (t2, some (PanicVal.other _)) => (t2, none)

/-- main.go lines 131-150: the slice-middleware form of the
authorization check; identical policy to `AuthorizationMiddleware`, and
additionally logs the token id on success before calling next. -/
def AuthFunc : Middleware := fun next req t =>
  let profile := headerGet req "Authorization"
  if profile.length = 0 then
    (t ++ [Event.log "missing auth token", Event.status 401], none)
  else
    let tokenID := muxVar req "id"
    if profile ≠ tokenID then
      (t ++ [Event.log "ownership not matched", Event.status 401], none)
    else
      next req (t ++ [Event.log ("tokenID: " ++ tokenID)])

/-- main.go lines 152-154: `fmt.Fprintln(w, "Hello client")` writes the
greeting plus a newline to the response sink. -/
def SayHello : Handler := fun _ t =>
  (t ++ [Event.body "Hello client\n"], none)

/-- main.go lines 157-162: `for _, m := range middlewares { f = m(f) }`
— a forward left fold of the middleware slice over the terminal
handler. -/
def Chain (f : Handler) (middlewares : List Middleware) : Handler :=
  List.foldl (fun g m => m g) f middlewares

/-- main.go lines 179-199: the `mux.MiddlewareFunc` form of the
authorization check; the router argument is unused in the source and is
dropped here.  Same policy as `AuthFunc`. -/
def MWAuthFunc : Middleware := fun next req t =>
  let profile := headerGet req "Authorization"
  if profile.length = 0 then
    (t ++ [Event.log "missing auth token", Event.status 401], none)
  else
    let tokenID := muxVar req "id"
    if profile ≠ tokenID then
      (t ++ [Event.log "ownership not matched", Event.status 401], none)
    else
      next req (t ++ [Event.log ("tokenID: " ++ tokenID)])

/-- main.go lines 201-208: writes the greeting and then calls next
(defined in the source but not used by any main variant). -/
def MWSayHello : Middleware := fun next req t =>
  next req (t ++ [Event.body "Hello client\n"])

/-- main.go line 60 (`main_bad`): the route handler with no middleware. -/
def mainBadHandler : Handler := GetAccount

/-- main.go line 85 (`main_good`): `AuthorizationMiddleware` wrapping
`GetAccount`. -/
def mainGoodHandler : Handler := AuthorizationMiddleware GetAccount

/-- main.go line 97 (`main_bad2`): `AuthorizationMiddleware_Bad` wrapping
`GetAccount`. -/
def mainBad2Handler : Handler := AuthorizationMiddleware_Bad GetAccount

/-- main.go line 169 (`main_chain`):
`Chain(SayHello, AuthFunc(), LoggingFunc())`. -/
def mainChainHandler : Handler := Chain SayHello [AuthFunc, LoggingFunc]

/-- main.go lines 214-215 (`main_uses_chain`): the route handler
`SayHello` behind `MWAuthFunc` registered via `r.Use`. -/
def mainUsesChainHandler : Handler := MWAuthFunc SayHello

/-- The spec text of the Compose operation, word for word:
`result := terminal; for each m in reverse(middlewares): result := m(result)`.
Stated only to be compared with the source `Chain`. -/
def ChainSpecRev (f : Handler) (middlewares : List Middleware) : Handler :=
  List.foldl (fun g m => m g) f middlewares.reverse

/-- Test fixture from the spec order-sensitivity scenario: a middleware
that always short-circuits (writes 401, never calls next), with an
observable pre-logic log entry. -/
def M1 : Middleware := fun _ _ t =>
  (t ++ [Event.log "M1", Event.status 401], none)

/-- Test fixture from the spec order-sensitivity scenario: a middleware
that always passes through, with an observable pre-logic log entry. -/
def M2 : Middleware := fun next req t =>
  next req (t ++ [Event.log "M2"])

/-- Test fixture: a request-oblivious next handler that records its
invocation, used to observe the decision an authorization stage makes. -/
def probeNext : Handler := fun _ t =>
  (t ++ [Event.log "NEXT"], none)

/-- Test fixture: a downstream handler that panics with a value
implementing `error`. -/
def panicsWithErr : Handler := fun _ t =>
  (t, some (PanicVal.err "boom"))

/-- Test fixture: a downstream handler that panics with a value not
implementing `error`. -/
def panicsWithOther : Handler := fun _ t =>
  (t, some (PanicVal.other "boom"))

/-- Test fixture: a request matching the sample curl invocation
(`curl localhost:8000/account/123 -H "Authorization: 123"`). -/
def reqOk : Request :=
  ⟨[("Authorization", "123")], [("id", "123")], "GET", "/account/123"⟩

/-- Test fixture: a request with no `Authorization` header. -/
def reqNoAuth : Request :=
  ⟨[], [("id", "123")], "GET", "/account/123"⟩

/-- Test fixture: a request whose credential does not match the id. -/
def reqMismatch : Request :=
  ⟨[("Authorization", "999")], [("id", "123")], "GET", "/account/123"⟩

/-- Test fixture: a request with no Authorization header and no id
route variable, so both strings read as empty and are equal. -/
def reqEmptyBoth : Request := ⟨[], [], "GET", "/account/"⟩

/-- Test fixture: a request agreeing with reqOk on the Authorization
header and the id route variable but differing in every other field. -/
def reqOkAlt : Request :=
  ⟨[("Authorization", "123"), ("X-Extra", "zzz")],
   [("id", "123"), ("q", "7")], "POST", "/other"⟩

/-- Whether an event is a write to the HTTP response sink (a status or a
body write, as opposed to a console log line). -/
def isWrite : Event → Bool
  | Event.status _ => true
  | Event.body _ => true
  | Event.log _ => false

/-- Number of response-sink writes in a trace. -/
def countWrites (t : Trace) : Nat :=
  List.countP isWrite t

/-- A string has length zero exactly when it is the empty string
(bridges the source emptiness test `len(profile) == 0` with equality to
the empty string). -/
theorem strLenZeroIff (s : String) : s.length = 0 ↔ s = "" := by
  constructor
  · intro h
    cases s with
    | mk data =>
      simp only [String.length] at h
      simp [List.length_eq_zero] at h
      simp [h]
  · intro h; subst h; rfl

/-- Claim C1, counterexample: on the sample request, Chain(SayHello,
[M1, M2]) with M1 always short-circuiting and M2 always passing through
does run the pre-logic of M2 (its log entry is in the trace), and the
composed handler differs from the reverse fold the spec describes — so
the first middleware in the list is not the outermost wrapper. -/
theorem c1_counterexample :
    Event.log "M2" ∈ (Chain SayHello [M1, M2] reqOk []).1 ∧
    Chain SayHello [M1, M2] reqOk [] ≠ ChainSpecRev SayHello [M1, M2] reqOk [] := by
  decide

/-- Claim C1, amended: Chain folds the middleware list over the terminal
in forward order, so the last middleware in the list is the outermost
wrapper; hence Chain(terminal, [M2, M1]) short-circuits at M1 before the
pre-logic of M2 or the terminal runs, while Chain(terminal, [M1, M2])
runs the pre-logic of M2 first and then M1 short-circuits, the terminal
never running in either case. -/
theorem c1_chain_folds_forward :
    (∀ (f : Handler) (ms : List Middleware),
      Chain f ms = List.foldl (fun g m => m g) f ms) ∧
    (∀ (f : Handler) (req : Request) (t : Trace),
      Chain f [M2, M1] req t = (t ++ [Event.log "M1", Event.status 401], none) ∧
      Chain f [M1, M2] req t =
        (t ++ [Event.log "M2", Event.log "M1", Event.status 401], none)) := by
  refine ⟨fun f ms => rfl, fun f req t => ⟨rfl, ?_⟩⟩
  simp [Chain, M1, M2]

/-- Claim C2: for every request with a non-empty Authorization header,
AuthorizationMiddleware_Bad logs the id route variable and invokes the
wrapped next handler unconditionally — no comparison of the credential
against the id ever happens, so the terminal handler runs whether or not
they match. -/
theorem c2_bad_auth_vacuous (next : Handler) (req : Request) (t : Trace)
    (h : headerGet req "Authorization" ≠ "") :
    AuthorizationMiddleware_Bad next req t =
      next req (t ++ [Event.log ("tokenID: " ++ muxVar req "id")]) := by
  have hlen : (headerGet req "Authorization").length ≠ 0 := by
    simpa [strLenZeroIff] using h
  simp [AuthorizationMiddleware_Bad, hlen]

/-- Claim C2, witness: on the request whose credential 999 does not
match the id 123, the bad middleware still hands control to
GetAccount. -/
theorem c2_bad_auth_vacuous_witness :
    headerGet reqMismatch "Authorization" ≠ "" ∧
    AuthorizationMiddleware_Bad GetAccount reqMismatch [] =
      GetAccount reqMismatch [Event.log ("tokenID: " ++ muxVar reqMismatch "id")] :=
  ⟨by decide, c2_bad_auth_vacuous GetAccount reqMismatch [] (by decide)⟩

/-- Claim C3: when the Authorization header is absent or empty, every
authorization stage — AuthorizationMiddleware,
AuthorizationMiddleware_Bad, AuthFunc and MWAuthFunc — writes status 401
and returns without invoking the wrapped next handler, for every id
route variable value (the result does not mention next or the id). -/
theorem c3_missing_credential_rejected (next : Handler) (req : Request) (t : Trace)
    (h : headerGet req "Authorization" = "") :
    AuthorizationMiddleware next req t =
      (t ++ [Event.log "missing auth token", Event.status 401], none) ∧
    AuthorizationMiddleware_Bad next req t =
      (t ++ [Event.log "missing auth token", Event.status 401], none) ∧
    AuthFunc next req t =
      (t ++ [Event.log "missing auth token", Event.status 401], none) ∧
    MWAuthFunc next req t =
      (t ++ [Event.log "missing auth token", Event.status 401], none) := by
  refine ⟨?_, ?_, ?_, ?_⟩ <;>
    simp [AuthorizationMiddleware, AuthorizationMiddleware_Bad, AuthFunc, MWAuthFunc, h]

/-- Claim C3, witness: the four stages evaluated on the concrete
request with no Authorization header. -/
theorem c3_missing_credential_rejected_witness :
    headerGet reqNoAuth "Authorization" = "" ∧
    (AuthorizationMiddleware GetAccount reqNoAuth [] =
      ([Event.log "missing auth token", Event.status 401], none) ∧
    AuthorizationMiddleware_Bad GetAccount reqNoAuth [] =
      ([Event.log "missing auth token", Event.status 401], none) ∧
    AuthFunc GetAccount reqNoAuth [] =
      ([Event.log "missing auth token", Event.status 401], none) ∧
    MWAuthFunc GetAccount reqNoAuth [] =
      ([Event.log "missing auth token", Event.status 401], none)) :=
  ⟨by decide, c3_missing_credential_rejected GetAccount reqNoAuth [] (by decide)⟩

/-- Claim C4: when the Authorization header is non-empty but different
from the id route variable, each correct stage —
AuthorizationMiddleware, AuthFunc and MWAuthFunc — appends exactly one
log line and one 401 status write (in particular no body write) and
returns without invoking the wrapped next handler. -/
theorem c4_mismatch_rejected (next : Handler) (req : Request) (t : Trace)
    (h : headerGet req "Authorization" ≠ "")
    (hm : headerGet req "Authorization" ≠ muxVar req "id") :
    AuthorizationMiddleware next req t =
      (t ++ [Event.log "ownership not matched", Event.status 401], none) ∧
    AuthFunc next req t =
      (t ++ [Event.log "ownership not matched", Event.status 401], none) ∧
    MWAuthFunc next req t =
      (t ++ [Event.log "ownership not matched", Event.status 401], none) := by
  have hlen : (headerGet req "Authorization").length ≠ 0 := by
    simpa [strLenZeroIff] using h
  refine ⟨?_, ?_, ?_⟩ <;>
    simp [AuthorizationMiddleware, AuthFunc, MWAuthFunc, hlen, hm]

/-- Claim C4, witness: the three correct stages evaluated on the
concrete mismatching request (credential 999, id 123). -/
theorem c4_mismatch_rejected_witness :
    headerGet reqMismatch "Authorization" ≠ "" ∧
    headerGet reqMismatch "Authorization" ≠ muxVar reqMismatch "id" ∧
    (AuthorizationMiddleware GetAccount reqMismatch [] =
      ([Event.log "ownership not matched", Event.status 401], none) ∧
    AuthFunc GetAccount reqMismatch [] =
      ([Event.log "ownership not matched", Event.status 401], none) ∧
    MWAuthFunc GetAccount reqMismatch [] =
      ([Event.log "ownership not matched", Event.status 401], none)) :=
  ⟨by decide, by decide,
    c4_mismatch_rejected GetAccount reqMismatch [] (by decide) (by decide)⟩

/-- Claim C5, counterexample: on a request whose Authorization header
and id route variable are both empty the two strings are exactly equal,
yet the correct stages write 401 and never invoke the terminal handler
(the emptiness check fires first), refuting the claim as stated for
requests with an equal but empty credential. -/
theorem c5_counterexample :
    headerGet reqEmptyBoth "Authorization" = muxVar reqEmptyBoth "id" ∧
    AuthorizationMiddleware GetAccount reqEmptyBoth [] =
      ([Event.log "missing auth token", Event.status 401], none) ∧
    AuthFunc SayHello reqEmptyBoth [] =
      ([Event.log "missing auth token", Event.status 401], none) := by
  decide

/-- Claim C5, amended: for every request whose Authorization header is
non-empty and exactly equals the id route variable, the correct stages
invoke the wrapped next handler (AuthorizationMiddleware passes the
trace through unchanged, AuthFunc and MWAuthFunc first log the token
id), the stage itself writes no status, and the terminal handler runs
exactly once producing its defined output — the fixed JSON payload for
GetAccount, the plaintext greeting for SayHello. -/
theorem c5_match_invokes_terminal (req : Request) (t : Trace)
    (h : headerGet req "Authorization" ≠ "")
    (hm : headerGet req "Authorization" = muxVar req "id") :
    AuthorizationMiddleware GetAccount req t =
      (t ++ [Event.body "\x7b\"message\": \"hello world..\"\x7d"], none) ∧
    (∀ next : Handler, AuthorizationMiddleware next req t = next req t) ∧
    AuthFunc SayHello req t =
      (t ++ [Event.log ("tokenID: " ++ muxVar req "id"),
             Event.body "Hello client\n"], none) ∧
    (∀ next : Handler,
      AuthFunc next req t = next req (t ++ [Event.log ("tokenID: " ++ muxVar req "id")])) ∧
    (∀ next : Handler,
      MWAuthFunc next req t = next req (t ++ [Event.log ("tokenID: " ++ muxVar req "id")])) := by
  have hlen : (headerGet req "Authorization").length ≠ 0 := by
    simpa [strLenZeroIff] using h
  have hlen2 : (muxVar req "id").length ≠ 0 := hm ▸ hlen
  refine ⟨?_, fun next => ?_, ?_, fun next => ?_, fun next => ?_⟩ <;>
    simp [AuthorizationMiddleware, AuthFunc, MWAuthFunc, GetAccount, SayHello, hlen, hlen2, hm]

/-- Claim C5, witness: the matching sample request (credential 123,
id 123) evaluated through each stage. -/
theorem c5_match_invokes_terminal_witness :
    headerGet reqOk "Authorization" ≠ "" ∧
    headerGet reqOk "Authorization" = muxVar reqOk "id" ∧
    (AuthorizationMiddleware GetAccount reqOk [] =
      ([Event.body "\x7b\"message\": \"hello world..\"\x7d"], none) ∧
    (∀ next : Handler, AuthorizationMiddleware next reqOk [] = next reqOk []) ∧
    AuthFunc SayHello reqOk [] =
      ([Event.log ("tokenID: " ++ muxVar reqOk "id"), Event.body "Hello client\n"], none) ∧
    (∀ next : Handler,
      AuthFunc next reqOk [] = next reqOk [Event.log ("tokenID: " ++ muxVar reqOk "id")]) ∧
    (∀ next : Handler,
      MWAuthFunc next reqOk [] = next reqOk [Event.log ("tokenID: " ++ muxVar reqOk "id")])) :=
  ⟨by decide, by decide,
    c5_match_invokes_terminal reqOk [] (by decide) (by decide)⟩

/-- Claim C6, counterexample: in the main_chain composition
Chain(SayHello, [AuthFunc, LoggingFunc]) the first listed middleware is
AuthFunc; on a request failing its check, LoggingFunc — a middleware
later in the list — still executes its pre-logic (its log entry heads
the trace), because later middlewares wrap outside the failing stage,
refuting the claim that no middleware later in the list executes. -/
theorem c6_counterexample :
    mainChainHandler reqNoAuth [] =
      ([Event.log "req", Event.log "missing auth token", Event.status 401], none) ∧
    Event.log "req" ∈ (mainChainHandler reqNoAuth []).1 := by
  decide

/-- Claim C6, amended: a stage that never calls its wrapped next handler
terminates the chain — the composed handler is independent of the
terminal handler and of every middleware listed before the stage (the
handlers downstream of it, which it wraps), at any position in the list;
and concretely, for the main_chain list [AuthFunc, LoggingFunc] and a
request failing the check of the first listed middleware AuthFunc, the
terminal handler never executes (the result is the same for every
terminal), though the pre-logic of the later-listed LoggingFunc does
run first. -/
theorem c6_short_circuit_invariant :
    (∀ m : Middleware, (∀ n n' : Handler, m n = m n') →
      ∀ (ms1 ms1' ms2 : List Middleware) (f f' : Handler),
        Chain f (ms1 ++ m :: ms2) = Chain f' (ms1' ++ m :: ms2)) ∧
    (∀ (f : Handler) (req : Request) (t : Trace),
      headerGet req "Authorization" = "" →
      Chain f [AuthFunc, LoggingFunc] req t =
        (t ++ [Event.log "req", Event.log "missing auth token", Event.status 401], none)) := by
  constructor
  · intro m hm ms1 ms1' ms2 f f'
    show List.foldl (fun g m => m g) f (ms1 ++ m :: ms2) =
      List.foldl (fun g m => m g) f' (ms1' ++ m :: ms2)
    rw [List.foldl_append, List.foldl_append, List.foldl_cons, List.foldl_cons]
    exact congrArg (fun h => List.foldl (fun g m => m g) h ms2) (hm _ _)
  · intro f req t h
    simp [Chain, AuthFunc, LoggingFunc, h]

/-- Claim C6, witness: the invariant applied to the always-short-circuit
fixture M1 (changing the terminal and the inner middlewares does not
change the composed handler), and the main_chain instance evaluated on
the credential-less request with two different terminals. -/
theorem c6_short_circuit_invariant_witness :
    (∀ n n' : Handler, M1 n = M1 n') ∧
    Chain GetAccount ([M2] ++ M1 :: [LoggingFunc]) =
      Chain SayHello ([] ++ M1 :: [LoggingFunc]) ∧
    headerGet reqNoAuth "Authorization" = "" ∧
    Chain GetAccount [AuthFunc, LoggingFunc] reqNoAuth [] =
      ([Event.log "req", Event.log "missing auth token", Event.status 401], none) :=
  ⟨fun n n' => rfl,
   c6_short_circuit_invariant.1 M1 (fun n n' => rfl) [M2] [] [LoggingFunc] GetAccount SayHello,
   by decide,
   c6_short_circuit_invariant.2 GetAccount reqNoAuth [] (by decide)⟩

/-- Claim C7: Chain applied to an empty middleware list returns the
terminal handler itself, definitionally — and since Chain is a pure
fold that only builds a function value, composition appends no event to
any trace; events arise only when the composed handler is invoked. -/
theorem c7_empty_chain_identity : ∀ f : Handler, Chain f [] = f :=
  fun _ => rfl

/-- Claim C8: each composed handler of the five sample variants —
GetAccount bare, AuthorizationMiddleware or
AuthorizationMiddleware_Bad around GetAccount, the main_chain
composition, and MWAuthFunc around SayHello — performs exactly one
response-sink write per invocation: either the single 401 status of the
rejecting stage or the single body write of the terminal handler. -/
theorem c8_single_response_write (req : Request) :
    countWrites (mainBadHandler req []).1 = 1 ∧
    countWrites (mainGoodHandler req []).1 = 1 ∧
    countWrites (mainBad2Handler req []).1 = 1 ∧
    countWrites (mainChainHandler req []).1 = 1 ∧
    countWrites (mainUsesChainHandler req []).1 = 1 := by
  refine ⟨?_, ?_, ?_, ?_, ?_⟩ <;>
    simp only [mainBadHandler, mainGoodHandler, mainBad2Handler, mainChainHandler,
      mainUsesChainHandler, Chain, List.foldl, AuthorizationMiddleware,
      AuthorizationMiddleware_Bad, AuthFunc, MWAuthFunc, LoggingFunc, GetAccount,
      SayHello] <;>
    (try split_ifs) <;>
    simp [countWrites, isWrite, List.countP_cons]

/-- Claim C9: the handler built by LoggingFunc never propagates a panic;
a downstream panic whose value implements error is converted into a
single 500 status write appended after the downstream trace, a
downstream panic with a non-error value is swallowed with the trace left
exactly as the downstream stage produced it (no status written), and a
normal downstream return is passed through unchanged. -/
theorem c9_logging_recovers_panics (next : Handler) (req : Request) (t : Trace) :
    (LoggingFunc next req t).2 = none ∧
    (∀ (t2 : Trace) (e : String),
      next req (t ++ [Event.log "req"]) = (t2, some (PanicVal.err e)) →
      LoggingFunc next req t = (t2 ++ [Event.status 500], none)) ∧
    (∀ (t2 : Trace) (v : String),
      next req (t ++ [Event.log "req"]) = (t2, some (PanicVal.other v)) →
      LoggingFunc next req t = (t2, none)) ∧
    (∀ t2 : Trace,
      next req (t ++ [Event.log "req"]) = (t2, none) →
      LoggingFunc next req t = (t2, none)) := by
  refine ⟨?_, ?_, ?_, ?_⟩
  · rcases hres : next req (t ++ [Event.log "req"]) with ⟨t2, p⟩
    rcases p with _ | pv
    · simp [LoggingFunc, hres]
    · cases pv <;> simp [LoggingFunc, hres]
  · intro t2 e hres; simp [LoggingFunc, hres]
  · intro t2 v hres; simp [LoggingFunc, hres]
  · intro t2 hres; simp [LoggingFunc, hres]

/-- Claim C9, witness: LoggingFunc evaluated around a handler panicking
with an error value (500 written), a handler panicking with a non-error
value (nothing written), and the normally returning SayHello. -/
theorem c9_logging_recovers_panics_witness :
    LoggingFunc panicsWithErr reqOk [] = ([Event.log "req", Event.status 500], none) ∧
    LoggingFunc panicsWithOther reqOk [] = ([Event.log "req"], none) ∧
    LoggingFunc SayHello reqOk [] = ([Event.log "req", Event.body "Hello client\n"], none) :=
  ⟨(c9_logging_recovers_panics panicsWithErr reqOk []).2.1 [Event.log "req"] "boom" rfl,
   (c9_logging_recovers_panics panicsWithOther reqOk []).2.2.1 [Event.log "req"] "boom" rfl,
   (c9_logging_recovers_panics SayHello reqOk []).2.2.2
     [Event.log "req", Event.body "Hello client\n"] rfl⟩

/-- Claim C10: for any request-oblivious next handler, each correct
authorization stage produces identical results on any two requests that
agree on the Authorization header and the id route variable — the
accept/reject decision and any status written depend only on that pair
of strings. -/
theorem c10_auth_decision_noninterference (next : Handler)
    (hnext : ∀ (r r' : Request) (s : Trace), next r s = next r' s)
    (req req' : Request) (t : Trace)
    (hA : headerGet req "Authorization" = headerGet req' "Authorization")
    (hI : muxVar req "id" = muxVar req' "id") :
    AuthorizationMiddleware next req t = AuthorizationMiddleware next req' t ∧
    AuthFunc next req t = AuthFunc next req' t ∧
    MWAuthFunc next req t = MWAuthFunc next req' t := by
  refine ⟨?_, ?_, ?_⟩ <;>
    simp only [AuthorizationMiddleware, AuthFunc, MWAuthFunc, ← hA, ← hI] <;>
    split_ifs <;>
    first
      | rfl
      | exact hnext _ _ _

/-- Claim C10, witness: two concrete requests sharing credential 123
and id 123 but differing in every other header, variable, method and
path give identical stage results around the invocation probe. -/
theorem c10_auth_decision_noninterference_witness :
    headerGet reqOk "Authorization" = headerGet reqOkAlt "Authorization" ∧
    muxVar reqOk "id" = muxVar reqOkAlt "id" ∧
    (AuthorizationMiddleware probeNext reqOk [] = AuthorizationMiddleware probeNext reqOkAlt [] ∧
    AuthFunc probeNext reqOk [] = AuthFunc probeNext reqOkAlt [] ∧
    MWAuthFunc probeNext reqOk [] = MWAuthFunc probeNext reqOkAlt []) :=
  ⟨by decide, by decide,
   c10_auth_decision_noninterference probeNext (fun r r' s => rfl) reqOk reqOkAlt []
     (by decide) (by decide)⟩
